import Mathlib

/-!
Verification of the ForgeEngine SDF raymarching renderer.

The development shallowly embeds the parts of the code that the checked
properties are about:

* `src/shaders/raymarch.frag` — SDF combination operators (scalar and
  color-propagating `SDFHit` overloads), the `raymarch` sphere-tracing loop
  and the `shadow_ray` soft-shadow loop.  GLSL `float` arithmetic is
  idealised as exact rational arithmetic `ℚ`; the scene function
  (`scene_sdf`, which depends on the `u_time` uniform) is a parameter of the
  marching loops, exactly as the loops only ever access it through calls.
* `src/main.c` — `camera_update` (pitch clamping); the libm calls
  `cosf`/`sinf`/`sqrtf` are abstract function parameters since the pitch
  invariant does not depend on them.
* `src/gl_renderer.c` (Direct fragment pipeline) and the compute+blit
  variant of the same file — the GPU-resource state machine:
  `compile_shader`, `link_program`, `link_compute_program`,
  `gl_renderer_create`, `gl_renderer_reload_shaders`, `gl_renderer_resize`,
  `create_output_texture`.  OpenGL object allocation is modelled by a
  fresh-id counter plus lists of live object names; the success or failure
  of each file load / compile / link is an explicit environment record,
  since it depends on the contents of the shader files on disk.
* `camera_basis` (both renderer files) over real arithmetic, with the real
  `Real.cos`/`Real.sin`/`Real.sqrt`.
-/

/-- Componentwise 3-vector, as GLSL `vec3` / C `float[3]`. -/
structure Vec3 (α : Type) where
  x : α
  y : α
  z : α
deriving DecidableEq, Repr

namespace Vec3

/-- Componentwise addition. -/
def add (a b : Vec3 ℚ) : Vec3 ℚ := ⟨a.x + b.x, a.y + b.y, a.z + b.z⟩

/-- Scalar multiple `t * v`. -/
def smul (t : ℚ) (v : Vec3 ℚ) : Vec3 ℚ := ⟨t * v.x, t * v.y, t * v.z⟩

end Vec3

/-- GLSL `mix(x, y, t) = x*(1-t) + y*t`, componentwise on `vec3`. -/
def mix3 (a b : Vec3 ℚ) (t : ℚ) : Vec3 ℚ :=
  ⟨a.x * (1 - t) + b.x * t, a.y * (1 - t) + b.y * t, a.z * (1 - t) + b.z * t⟩

/-- GLSL `clamp(x, lo, hi) = min(max(x, lo), hi)`. -/
def clampQ (x lo hi : ℚ) : ℚ := min (max x lo) hi

/-- SDF result with material color (struct `SDFHit` in `raymarch.frag`). -/
structure SDFHit where
  d : ℚ
  color : Vec3 ℚ
deriving DecidableEq, Repr

/-- Scalar `opUnion` from `raymarch.frag`: `min(a,b)`. -/
def opUnion (a b : ℚ) : ℚ := min a b

/-- Scalar `opSubtraction` from `raymarch.frag`: `max(-a,b)`. -/
def opSubtraction (a b : ℚ) : ℚ := max (-a) b

/-- Scalar `opIntersection` from `raymarch.frag`: `max(a,b)`. -/
def opIntersection (a b : ℚ) : ℚ := max a b

/-- Scalar `opXor` from `raymarch.frag`: `max(min(a,b),-max(a,b))`. -/
def opXor (a b : ℚ) : ℚ := max (min a b) (-(max a b))

/-- Color-propagating `opUnion(SDFHit, SDFHit)`: `(a.d < b.d) ? a : b`. -/
def SDFHit.opUnion (a b : SDFHit) : SDFHit := if a.d < b.d then a else b

/-- Color-propagating `opSubtraction(SDFHit, SDFHit)`:
`SDFHit(max(a.d, -b.d), a.color)` (carve b from a, keep the outer color). -/
def SDFHit.opSubtraction (a b : SDFHit) : SDFHit := ⟨max a.d (-b.d), a.color⟩

/-- Color-propagating `opIntersection(SDFHit, SDFHit)`:
`SDFHit(max(a.d, b.d), b.color)`. -/
def SDFHit.opIntersection (a b : SDFHit) : SDFHit := ⟨max a.d b.d, b.color⟩

/-- Scalar `opSmoothUnion(a, b, k)` from `raymarch.frag`:
`k *= 4; h = max(k-abs(a-b),0); min(a,b) - h*h*0.25/k`. -/
def opSmoothUnion (a b k : ℚ) : ℚ :=
  let k4 := k * 4
  let h := max (k4 - |a - b|) 0
  min a b - h * h * (1/4) / k4

/-- Scalar `opSmoothSubtraction(a, b, k)`: `-opSmoothUnion(a, -b, k)`. -/
def opSmoothSubtraction (a b k : ℚ) : ℚ := -opSmoothUnion a (-b) k

/-- Scalar `opSmoothIntersection(a, b, k)`: `-opSmoothUnion(-a, -b, k)`. -/
def opSmoothIntersection (a b k : ℚ) : ℚ := -opSmoothUnion (-a) (-b) k

/-- Color-blending `opSmoothUnion(SDFHit, SDFHit, k)` from `raymarch.frag`:
`k *= 4; h = max(k - abs(a.d - b.d), 0); d = min(a.d, b.d) - h*h*0.25/k;
t = clamp(0.5 + 0.5*(b.d - a.d)/k, 0, 1); col = mix(a.color, b.color, t)`. -/
def SDFHit.opSmoothUnion (a b : SDFHit) (k : ℚ) : SDFHit :=
  let k4 := k * 4
  let h := max (k4 - |a.d - b.d|) 0
  let d := min a.d b.d - h * h * (1/4) / k4
  let t := clampQ (1/2 + (1/2) * (b.d - a.d) / k4) 0 1
  ⟨d, mix3 a.color b.color t⟩

/-- Color-blending `opSmoothSubtraction(SDFHit, SDFHit, k)`:
negate `a`, smooth-union with `b`, negate the result, keep `a`'s color. -/
def SDFHit.opSmoothSubtraction (a b : SDFHit) (k : ℚ) : SDFHit :=
  let neg_a : SDFHit := ⟨-a.d, a.color⟩
  let u := SDFHit.opSmoothUnion neg_a b k
  ⟨-u.d, a.color⟩

/-- Color-blending `opSmoothIntersection(SDFHit, SDFHit, k)`:
negate both operands, smooth-union, negate the result, keep the blend color. -/
def SDFHit.opSmoothIntersection (a b : SDFHit) (k : ℚ) : SDFHit :=
  let neg_a : SDFHit := ⟨-a.d, a.color⟩
  let neg_b : SDFHit := ⟨-b.d, b.color⟩
  let u := SDFHit.opSmoothUnion neg_a neg_b k
  ⟨-u.d, u.color⟩

/-- C6: union picks the operand with the smaller distance and keeps its
color; the scalar overload returns `min(a, b)`. -/
theorem opUnion_spec (A B : SDFHit) (a b : ℚ) :
    (SDFHit.opUnion A B).d = min A.d B.d ∧
    (A.d < B.d → (SDFHit.opUnion A B).color = A.color) ∧
    (B.d < A.d → (SDFHit.opUnion A B).color = B.color) ∧
    opUnion a b = min a b := by
  refine ⟨?_, ?_, ?_, rfl⟩
  · unfold SDFHit.opUnion
    split <;> rename_i h
    · exact (min_eq_left h.le).symm
    · exact (min_eq_right (le_of_not_lt h)).symm
  · intro h
    simp [SDFHit.opUnion, h]
  · intro h
    simp [SDFHit.opUnion, asymm h, not_lt_of_gt h]

/-- Witness for `opUnion_spec` at concrete operands with `A.d < B.d`. -/
theorem opUnion_spec_witness :
    (SDFHit.opUnion ⟨1, ⟨1, 0, 0⟩⟩ ⟨2, ⟨0, 0, 1⟩⟩).d = min 1 2 ∧
    (SDFHit.opUnion ⟨1, ⟨1, 0, 0⟩⟩ ⟨2, ⟨0, 0, 1⟩⟩).color = ⟨1, 0, 0⟩ := by
  have h := opUnion_spec ⟨1, ⟨1, 0, 0⟩⟩ ⟨2, ⟨0, 0, 1⟩⟩ 0 0
  exact ⟨h.1, h.2.1 (by norm_num)⟩

/-- C2 counterexample: the scalar overload `opSubtraction(a,b)` does not
return `max(a, -b)`; at `a = 1, b = 2` the code returns `max(-1, 2) = 2`
while the claimed formula gives `max(1, -2) = 1`. -/
theorem opSubtraction_scalar_cex : opSubtraction 1 2 ≠ max (1 : ℚ) (-2) := by
  norm_num [opSubtraction]

/-- C2 (amended): the `SDFHit` overload `opSubtraction(a,b)` carves b from a,
returning distance `max(a.d, -b.d)` and a's color, while the scalar overload
returns `max(-a, b)`, i.e. it carves its first operand from its second. -/
theorem opSubtraction_spec (A B : SDFHit) (a b : ℚ) :
    SDFHit.opSubtraction A B = ⟨max A.d (-B.d), A.color⟩ ∧
    opSubtraction a b = max (-a) b :=
  ⟨rfl, rfl⟩

/-- C5: smooth union distance is `min(a.d,b.d) - h^2/(16k)` with
`h = max(4k - |a.d-b.d|, 0)`, and the color is `mix(a.color, b.color, t)`
with `t = clamp(0.5 + 0.5*(b.d-a.d)/(4k), 0, 1)`; the scalar overload
computes the same distance.  Requires `k > 0`. -/
theorem opSmoothUnion_spec (A B : SDFHit) (a b k : ℚ) (hk : 0 < k) :
    (SDFHit.opSmoothUnion A B k).d =
      min A.d B.d - (max (4 * k - |A.d - B.d|) 0) ^ 2 / (16 * k) ∧
    (SDFHit.opSmoothUnion A B k).color =
      mix3 A.color B.color (clampQ (1/2 + (1/2) * (B.d - A.d) / (4 * k)) 0 1) ∧
    opSmoothUnion a b k =
      min a b - (max (4 * k - |a - b|) 0) ^ 2 / (16 * k) := by
  have hk' : k ≠ 0 := ne_of_gt hk
  refine ⟨?_, ?_, ?_⟩
  · show min A.d B.d - max (k * 4 - |A.d - B.d|) 0 * max (k * 4 - |A.d - B.d|) 0 * (1/4) / (k * 4) =
      min A.d B.d - (max (4 * k - |A.d - B.d|) 0) ^ 2 / (16 * k)
    rw [show k * 4 = 4 * k by ring]
    field_simp
    ring
  · show mix3 A.color B.color (clampQ (1/2 + (1/2) * (B.d - A.d) / (k * 4)) 0 1) =
      mix3 A.color B.color (clampQ (1/2 + (1/2) * (B.d - A.d) / (4 * k)) 0 1)
    rw [show k * 4 = 4 * k by ring]
  · show min a b - max (k * 4 - |a - b|) 0 * max (k * 4 - |a - b|) 0 * (1/4) / (k * 4) =
      min a b - (max (4 * k - |a - b|) 0) ^ 2 / (16 * k)
    rw [show k * 4 = 4 * k by ring]
    field_simp
    ring

/-- Witness for `opSmoothUnion_spec` at concrete operands and `k = 1`. -/
theorem opSmoothUnion_spec_witness :
    (0 : ℚ) < 1 ∧
    ((SDFHit.opSmoothUnion ⟨1, ⟨1, 0, 0⟩⟩ ⟨2, ⟨0, 0, 1⟩⟩ 1).d =
      min 1 2 - (max (4 * 1 - |(1 : ℚ) - 2|) 0) ^ 2 / (16 * 1) ∧
    (SDFHit.opSmoothUnion ⟨1, ⟨1, 0, 0⟩⟩ ⟨2, ⟨0, 0, 1⟩⟩ 1).color =
      mix3 ⟨1, 0, 0⟩ ⟨0, 0, 1⟩ (clampQ (1/2 + (1/2) * ((2 : ℚ) - 1) / (4 * 1)) 0 1) ∧
    opSmoothUnion 3 5 1 = min 3 5 - (max (4 * 1 - |(3 : ℚ) - 5|) 0) ^ 2 / (16 * 1)) :=
  ⟨by norm_num, opSmoothUnion_spec ⟨1, ⟨1, 0, 0⟩⟩ ⟨2, ⟨0, 0, 1⟩⟩ 3 5 1 (by norm_num)⟩

/-!
Raymarching and shadow loops from `raymarch.frag`.  `scene_sdf` reads the
`u_time` uniform and so denotes a family of pure functions; the loops access
it only through calls, so it is a parameter here.  GLSL `normalize` involves
a square root that has no exact rational counterpart, so the normalisation
applied inside `calc_normal` is likewise a function parameter.
-/

/-- Finite-difference normal `calc_normal(p)` from `raymarch.frag`:
central differences of the scene distance with offset `eps = 0.0001`,
passed through the (parameterised) `normalize`. -/
def calc_normal (scene : Vec3 ℚ → SDFHit) (normalizeQ : Vec3 ℚ → Vec3 ℚ)
    (p : Vec3 ℚ) : Vec3 ℚ :=
  let eps : ℚ := 1/10000
  let nx := (scene (Vec3.add p ⟨eps, 0, 0⟩)).d - (scene (Vec3.add p ⟨-eps, 0, 0⟩)).d
  let ny := (scene (Vec3.add p ⟨0, eps, 0⟩)).d - (scene (Vec3.add p ⟨0, -eps, 0⟩)).d
  let nz := (scene (Vec3.add p ⟨0, 0, eps⟩)).d - (scene (Vec3.add p ⟨0, 0, -eps⟩)).d
  normalizeQ ⟨nx, ny, nz⟩

/-- Result of `raymarch`: the four `out` parameters, plus an instrumentation
counter `evals` recording how many times `scene_sdf` was evaluated
(each loop sample counts 1; a hit adds the 6 samples of `calc_normal`). -/
structure RMOut where
  hit : Bool
  hit_pos : Vec3 ℚ
  hit_normal : Vec3 ℚ
  hit_color : Vec3 ℚ
  evals : ℕ
deriving Repr

/-- The `out` values `raymarch` leaves untouched when no hit is found:
`hit = false, hit_pos = vec3(0), hit_normal = (0,1,0), hit_color = vec3(1)`. -/
def rmMiss (evals : ℕ) : RMOut := ⟨false, ⟨0, 0, 0⟩, ⟨0, 1, 0⟩, ⟨1, 1, 1⟩, evals⟩

/-- Loop body of `raymarch` (fuel = remaining iterations of
`for (step = 0; step < MAX_STEPS; step++)`): sample the scene at
`origin + dist * dir`; report a hit below the `0.001` threshold; otherwise
advance `dist` by exactly the sampled distance and stop past `100`. -/
def raymarchLoop (scene : Vec3 ℚ → SDFHit) (normalizeQ : Vec3 ℚ → Vec3 ℚ)
    (origin dir : Vec3 ℚ) : ℕ → ℚ → ℕ → RMOut
  | 0, _, e => rmMiss e
  | n + 1, dist, e =>
    let p := Vec3.add origin (Vec3.smul dist dir)
    let h := scene p
    if h.d < 1/1000 then
      ⟨true, p, calc_normal scene normalizeQ p, h.color, e + 1 + 6⟩
    else
      let dist2 := dist + h.d
      if 100 < dist2 then rmMiss (e + 1)
      else raymarchLoop scene normalizeQ origin dir n dist2 (e + 1)

/-- The `raymarch` function from `raymarch.frag`: `MAX_STEPS = 128`,
starting at marching distance 0. -/
def raymarch (scene : Vec3 ℚ → SDFHit) (normalizeQ : Vec3 ℚ → Vec3 ℚ)
    (origin dir : Vec3 ℚ) : RMOut :=
  raymarchLoop scene normalizeQ origin dir 128 0 0

/-- Invariant for the raymarch loop: if every scene sample within marching
distance `[0, 100]` stays at or above the threshold, the loop never reports
a hit and performs at most one scene evaluation per unit of fuel. -/
theorem raymarchLoop_no_hit (scene : Vec3 ℚ → SDFHit)
    (normalizeQ : Vec3 ℚ → Vec3 ℚ) (origin dir : Vec3 ℚ)
    (hscene : ∀ t : ℚ, 0 ≤ t → t ≤ 100 →
      1/1000 ≤ (scene (Vec3.add origin (Vec3.smul t dir))).d) :
    ∀ (n : ℕ) (dist : ℚ) (e : ℕ), 0 ≤ dist → dist ≤ 100 →
      (raymarchLoop scene normalizeQ origin dir n dist e).hit = false ∧
      (raymarchLoop scene normalizeQ origin dir n dist e).evals ≤ e + n := by
  intro n
  induction n with
  | zero => intro dist e _ _; exact ⟨rfl, le_refl e⟩
  | succ m ih =>
    intro dist e h0 h100
    have hd := hscene dist h0 h100
    rw [raymarchLoop]
    have hnot : ¬ (scene (Vec3.add origin (Vec3.smul dist dir))).d < 1/1000 :=
      not_lt_of_ge hd
    simp only [hnot, if_false]
    by_cases hfar : 100 < dist + (scene (Vec3.add origin (Vec3.smul dist dir))).d
    · simp only [hfar, if_true]
      exact ⟨rfl, by simp [rmMiss]⟩
    · simp only [hfar, if_false]
      have h0' : 0 ≤ dist + (scene (Vec3.add origin (Vec3.smul dist dir))).d := by
        have : (0:ℚ) ≤ (scene (Vec3.add origin (Vec3.smul dist dir))).d :=
          le_trans (by norm_num) hd
        linarith
      have h100' : dist + (scene (Vec3.add origin (Vec3.smul dist dir))).d ≤ 100 :=
        le_of_not_lt hfar
      obtain ⟨hh, he⟩ := ih (dist + (scene (Vec3.add origin (Vec3.smul dist dir))).d)
        (e + 1) h0' h100'
      exact ⟨hh, by omega⟩

/-- C3: a ray along which every scene sample within accumulated marching
distance 100 stays at or above the 0.001 threshold produces no hit, with at
most 128 scene evaluations. -/
theorem raymarch_no_hit (scene : Vec3 ℚ → SDFHit)
    (normalizeQ : Vec3 ℚ → Vec3 ℚ) (origin dir : Vec3 ℚ)
    (hscene : ∀ t : ℚ, 0 ≤ t → t ≤ 100 →
      1/1000 ≤ (scene (Vec3.add origin (Vec3.smul t dir))).d) :
    (raymarch scene normalizeQ origin dir).hit = false ∧
    (raymarch scene normalizeQ origin dir).evals ≤ 128 := by
  have h := raymarchLoop_no_hit scene normalizeQ origin dir hscene 128 0 0
    (le_refl 0) (by norm_num)
  exact ⟨h.1, by simpa [raymarch] using h.2⟩

/-- Witness for `raymarch_no_hit`: a constant scene one unit away
everywhere never gets hit. -/
theorem raymarch_no_hit_witness :
    (raymarch (fun _ => ⟨1, ⟨1, 1, 1⟩⟩) id ⟨0, 0, 0⟩ ⟨0, 0, -1⟩).hit = false ∧
    (raymarch (fun _ => ⟨1, ⟨1, 1, 1⟩⟩) id ⟨0, 0, 0⟩ ⟨0, 0, -1⟩).evals ≤ 128 :=
  raymarch_no_hit (fun _ => ⟨1, ⟨1, 1, 1⟩⟩) id ⟨0, 0, 0⟩ ⟨0, 0, -1⟩
    (fun t _ _ => by norm_num)

/-- Loop body of `shadow_ray` (fuel = remaining iterations of the 64-step
loop): return the accumulated `soft` once `dist >= max_dist`; return 0 as
soon as a sample falls below the `0.001` threshold; otherwise fold the
penumbra term `k * d / max(dist, 0.001)` with `k = 32` into the running
minimum and advance by the sampled distance. -/
def shadowLoop (scene : Vec3 ℚ → SDFHit) (origin dir : Vec3 ℚ)
    (maxDist : ℚ) : ℕ → ℚ → ℚ → ℚ
  | 0, _, soft => soft
  | n + 1, dist, soft =>
    if maxDist ≤ dist then soft
    else
      let d := (scene (Vec3.add origin (Vec3.smul dist dir))).d
      if d < 1/1000 then 0
      else shadowLoop scene origin dir maxDist n (dist + d)
        (min soft (32 * d / max dist (1/1000)))

/-- The `shadow_ray` function from `raymarch.frag`: `MAX_STEPS = 64`,
starting at traveled distance 0 and running minimum 1. -/
def shadow_ray (scene : Vec3 ℚ → SDFHit) (origin dir : Vec3 ℚ)
    (maxDist : ℚ) : ℚ :=
  shadowLoop scene origin dir maxDist 64 0 1

/-- Shadow query as the specification words it: walk up to a 64-step
budget; once the traveled distance reaches `max_distance`, or the budget is
exhausted, return the running minimum (which starts at 1) of
`32 * d / max(traveled, 0.001)` over the sampled steps; return exactly 0
when a sample falls below the `0.001` threshold before the traveled
distance reaches `max_distance`. -/
def shadowSpecLoop (scene : Vec3 ℚ → SDFHit) (origin dir : Vec3 ℚ)
    (maxDist : ℚ) : ℕ → ℚ → ℚ → ℚ
  | 0, _, runningMin => runningMin
  | budget + 1, traveled, runningMin =>
    if maxDist ≤ traveled then runningMin
    else
      let d := (scene (Vec3.add origin (Vec3.smul traveled dir))).d
      if d < 1/1000 then 0
      else shadowSpecLoop scene origin dir maxDist budget (traveled + d)
        (min runningMin (32 * d / max traveled (1/1000)))

/-- Shadow query described by the spec: 64-step budget, running minimum
starting at 1, traveled distance starting at 0. -/
def shadowSpec (scene : Vec3 ℚ → SDFHit) (origin dir : Vec3 ℚ)
    (maxDist : ℚ) : ℚ :=
  shadowSpecLoop scene origin dir maxDist 64 0 1

/-- The shadow loop keeps its accumulator inside `[0, 1]`: the running
minimum only decreases, and every folded penumbra term is nonnegative
because surviving samples are at least the threshold. -/
theorem shadowLoop_bounds (scene : Vec3 ℚ → SDFHit) (origin dir : Vec3 ℚ)
    (maxDist : ℚ) :
    ∀ (n : ℕ) (dist soft : ℚ), 0 ≤ soft → soft ≤ 1 →
      0 ≤ shadowLoop scene origin dir maxDist n dist soft ∧
      shadowLoop scene origin dir maxDist n dist soft ≤ 1 := by
  intro n
  induction n with
  | zero => intro dist soft h0 h1; exact ⟨h0, h1⟩
  | succ m ih =>
    intro dist soft h0 h1
    rw [shadowLoop]
    by_cases hfar : maxDist ≤ dist
    · simp only [hfar, if_true]; exact ⟨h0, h1⟩
    · simp only [hfar, if_false]
      by_cases hocc : (scene (Vec3.add origin (Vec3.smul dist dir))).d < 1/1000
      · simp only [hocc, if_true]; norm_num
      · simp only [hocc, if_false]
        have hd : (1:ℚ)/1000 ≤ (scene (Vec3.add origin (Vec3.smul dist dir))).d :=
          le_of_not_lt hocc
        apply ih
        · apply le_min h0
          apply div_nonneg
          · linarith
          · exact le_trans (by norm_num) (le_max_right dist (1/1000))
        · exact le_trans (min_le_left _ _) h1

/-- C4: the shadow query stays in `[0, 1]`; it is exactly 1 when the ray
reaches `max_distance` before any geometry is sampled, exactly 0 when the
very first sample is already below the threshold, and in general it is the
running minimum the specification describes. -/
theorem shadow_ray_props (scene : Vec3 ℚ → SDFHit) (origin dir : Vec3 ℚ)
    (maxDist : ℚ) :
    0 ≤ shadow_ray scene origin dir maxDist ∧
    shadow_ray scene origin dir maxDist ≤ 1 ∧
    (maxDist ≤ 0 → shadow_ray scene origin dir maxDist = 1) ∧
    (0 < maxDist → (scene origin).d < 1/1000 →
      shadow_ray scene origin dir maxDist = 0) ∧
    shadow_ray scene origin dir maxDist = shadowSpec scene origin dir maxDist := by
  have horigin : Vec3.add origin (Vec3.smul 0 dir) = origin := by
    cases origin; cases dir; simp [Vec3.add, Vec3.smul]
  obtain ⟨hl, hr⟩ := shadowLoop_bounds scene origin dir maxDist 64 0 1
    (by norm_num) (by norm_num)
  refine ⟨hl, hr, ?_, ?_, rfl⟩
  · intro hneg
    rw [shadow_ray, shadowLoop]
    simp only [hneg, if_true]
  · intro hpos hblock
    rw [shadow_ray, shadowLoop]
    have hnot : ¬ maxDist ≤ (0:ℚ) := not_le_of_gt hpos
    simp only [hnot, if_false, horigin, hblock, if_true]

/-- Witness for `shadow_ray_props`: a scene that is already a hit at the
origin yields 0, and the bounds hold there. -/
theorem shadow_ray_props_witness :
    0 ≤ shadow_ray (fun _ => ⟨0, ⟨1, 1, 1⟩⟩) ⟨0, 0, 0⟩ ⟨0, 1, 0⟩ 10 ∧
    shadow_ray (fun _ => ⟨0, ⟨1, 1, 1⟩⟩) ⟨0, 0, 0⟩ ⟨0, 1, 0⟩ 10 = 0 := by
  have h := shadow_ray_props (fun _ => ⟨0, ⟨1, 1, 1⟩⟩) ⟨0, 0, 0⟩ ⟨0, 1, 0⟩ 10
  exact ⟨h.1, h.2.2.2.1 (by norm_num) (by norm_num)⟩

/-!
Camera model.  `camera_t` from `gl_renderer.h` (position, yaw, pitch) is
generic in the scalar type: `camera_update` from `main.c` is embedded over
`ℚ` with the libm calls `cosf`/`sinf`/`sqrtf` as function parameters, and
`camera_basis` from `gl_renderer.c` is embedded over `ℝ` with the exact
`Real.cos`/`Real.sin`/`Real.sqrt`, as the claim about it is stated over
exact real arithmetic.
-/

/-- Camera state `camera_t`: position, yaw (radians about Y), pitch. -/
structure Camera (α : Type) where
  pos : Vec3 α
  yaw : α
  pitch : α

/-- Currently pressed movement keys read by `camera_update`
(`W/S/D/A/SPACE/LSHIFT`). -/
structure Keys where
  w : Bool
  s : Bool
  d : Bool
  a : Bool
  space : Bool
  lshift : Bool

/-- The `camera_update` function from `main.c`: accumulate mouse deltas
into yaw and pitch with `MOUSE_SENSITIVITY = 0.002`, clamp pitch to
`[-1.57, 1.57]`, then move the position along the key-selected combination
of forward/right/world-up scaled by `CAMERA_SPEED * dt` over the move
vector's length when that length exceeds `0.0001`. -/
def camera_update (cosq sinq sqrtq : ℚ → ℚ) (cam : Camera ℚ) (dt : ℚ)
    (keys : Keys) (mouse_dx mouse_dy : ℤ) : Camera ℚ :=
  let yaw := cam.yaw + (mouse_dx : ℚ) * (1/500)
  let pitch0 := cam.pitch - (mouse_dy : ℚ) * (1/500)
  let pitch1 := if 157/100 < pitch0 then 157/100 else pitch0
  let pitch := if pitch1 < -(157/100) then -(157/100) else pitch1
  let cy := cosq yaw
  let sy := sinq yaw
  let cp := cosq pitch
  let sp := sinq pitch
  let fwd : Vec3 ℚ := ⟨cp * sy, sp, -(cp * cy)⟩
  let right : Vec3 ℚ := ⟨cy, 0, sy⟩
  let m0 : Vec3 ℚ := ⟨0, 0, 0⟩
  let m1 := if keys.w then Vec3.add m0 fwd else m0
  let m2 := if keys.s then ⟨m1.x - fwd.x, m1.y - fwd.y, m1.z - fwd.z⟩ else m1
  let m3 : Vec3 ℚ := if keys.d then ⟨m2.x + right.x, m2.y, m2.z + right.z⟩ else m2
  let m4 : Vec3 ℚ := if keys.a then ⟨m3.x - right.x, m3.y, m3.z - right.z⟩ else m3
  let m5 : Vec3 ℚ := if keys.space then ⟨m4.x, m4.y + 1, m4.z⟩ else m4
  let mv : Vec3 ℚ := if keys.lshift then ⟨m5.x, m5.y - 1, m5.z⟩ else m5
  let len := sqrtq (mv.x * mv.x + mv.y * mv.y + mv.z * mv.z)
  let pos :=
    if 1/10000 < len then
      let sc := 4 * dt / len
      Vec3.add cam.pos ⟨mv.x * sc, mv.y * sc, mv.z * sc⟩
    else cam.pos
  ⟨pos, yaw, pitch⟩

/-- C7: after `camera_update` the pitch always lies in `[-1.57, 1.57]`,
whatever the previous state, the elapsed time, the pressed keys, the mouse
deltas, and the libm implementations. -/
theorem camera_update_pitch_bounds (cosq sinq sqrtq : ℚ → ℚ)
    (cam : Camera ℚ) (dt : ℚ) (keys : Keys) (mouse_dx mouse_dy : ℤ) :
    -(157/100) ≤ (camera_update cosq sinq sqrtq cam dt keys mouse_dx mouse_dy).pitch ∧
    (camera_update cosq sinq sqrtq cam dt keys mouse_dx mouse_dy).pitch ≤ 157/100 := by
  simp only [camera_update]
  constructor <;> split_ifs <;> linarith

/-- Dot product of real 3-vectors. -/
def dot3 (a b : Vec3 ℝ) : ℝ := a.x * b.x + a.y * b.y + a.z * b.z

/-- The `camera_basis` function from `gl_renderer.c` over exact real
arithmetic: forward from yaw/pitch, right as the cross product of forward
with world-up `(0,1,0)` scaled by the reciprocal square root of its squared
length, up as the cross product of right with forward. -/
noncomputable def camera_basis (cam : Camera ℝ) : Vec3 ℝ × Vec3 ℝ × Vec3 ℝ :=
  let cy := Real.cos cam.yaw
  let sy := Real.sin cam.yaw
  let cp := Real.cos cam.pitch
  let sp := Real.sin cam.pitch
  let fwd : Vec3 ℝ := ⟨cp * sy, sp, -(cp * cy)⟩
  let wu : Vec3 ℝ := ⟨0, 1, 0⟩
  let r0 : Vec3 ℝ := ⟨fwd.y * wu.z - fwd.z * wu.y,
                      fwd.z * wu.x - fwd.x * wu.z,
                      fwd.x * wu.y - fwd.y * wu.x⟩
  let rlen := 1 / Real.sqrt (r0.x * r0.x + r0.y * r0.y + r0.z * r0.z)
  let right : Vec3 ℝ := ⟨r0.x * rlen, r0.y * rlen, r0.z * rlen⟩
  let up : Vec3 ℝ := ⟨right.y * fwd.z - right.z * fwd.y,
                      right.z * fwd.x - right.x * fwd.z,
                      right.x * fwd.y - right.y * fwd.x⟩
  (fwd, right, up)

/-- Helper computing `camera_basis` in closed form when `cos pitch > 0`:
the right vector normalises to `(cos yaw, 0, sin yaw)` and the up vector to
`(-sin yaw * sin pitch, cos pitch, cos yaw * sin pitch)`. -/
theorem camera_basis_eq (cam : Camera ℝ) (hcp : (0:ℝ) < Real.cos cam.pitch) :
    camera_basis cam =
      (⟨Real.cos cam.pitch * Real.sin cam.yaw, Real.sin cam.pitch,
          -(Real.cos cam.pitch * Real.cos cam.yaw)⟩,
       ⟨Real.cos cam.yaw, 0, Real.sin cam.yaw⟩,
       ⟨-(Real.sin cam.yaw * Real.sin cam.pitch), Real.cos cam.pitch,
          Real.cos cam.yaw * Real.sin cam.pitch⟩) := by
  have hy := Real.sin_sq_add_cos_sq cam.yaw
  have hcp0 : Real.cos cam.pitch ≠ 0 := ne_of_gt hcp
  have harg : (Real.sin cam.pitch * 0 - -(Real.cos cam.pitch * Real.cos cam.yaw) * 1) *
        (Real.sin cam.pitch * 0 - -(Real.cos cam.pitch * Real.cos cam.yaw) * 1) +
      (-(Real.cos cam.pitch * Real.cos cam.yaw) * 0 - Real.cos cam.pitch * Real.sin cam.yaw * 0) *
        (-(Real.cos cam.pitch * Real.cos cam.yaw) * 0 - Real.cos cam.pitch * Real.sin cam.yaw * 0) +
      (Real.cos cam.pitch * Real.sin cam.yaw * 1 - Real.sin cam.pitch * 0) *
        (Real.cos cam.pitch * Real.sin cam.yaw * 1 - Real.sin cam.pitch * 0) =
      Real.cos cam.pitch ^ 2 := by
    linear_combination (Real.cos cam.pitch ^ 2) * hy
  simp only [camera_basis]
  rw [harg, Real.sqrt_sq hcp.le]
  simp only [Prod.mk.injEq, Vec3.mk.injEq]
  refine ⟨trivial, ⟨?_, ?_, ?_⟩, ?_, ?_, ?_⟩
  · field_simp
  · field_simp
  · field_simp
  · field_simp
  · field_simp
    linear_combination Real.cos cam.pitch * hy
  · field_simp

/-- C8: for pitch in `[-1.57, 1.57]` the basis `camera_basis` returns is
orthonormal over the reals: all pairwise dot products vanish and every
vector has unit squared length, hence unit magnitude. -/
theorem camera_basis_orthonormal (cam : Camera ℝ)
    (hlo : -(157/100) ≤ cam.pitch) (hhi : cam.pitch ≤ 157/100) :
    dot3 (camera_basis cam).1 (camera_basis cam).1 = 1 ∧
    dot3 (camera_basis cam).2.1 (camera_basis cam).2.1 = 1 ∧
    dot3 (camera_basis cam).2.2 (camera_basis cam).2.2 = 1 ∧
    dot3 (camera_basis cam).1 (camera_basis cam).2.1 = 0 ∧
    dot3 (camera_basis cam).1 (camera_basis cam).2.2 = 0 ∧
    dot3 (camera_basis cam).2.1 (camera_basis cam).2.2 = 0 ∧
    Real.sqrt (dot3 (camera_basis cam).1 (camera_basis cam).1) = 1 ∧
    Real.sqrt (dot3 (camera_basis cam).2.1 (camera_basis cam).2.1) = 1 ∧
    Real.sqrt (dot3 (camera_basis cam).2.2 (camera_basis cam).2.2) = 1 := by
  have hpi := Real.pi_gt_d6
  have hcp : (0:ℝ) < Real.cos cam.pitch := by
    apply Real.cos_pos_of_mem_Ioo
    constructor
    · show -(Real.pi / 2) < cam.pitch
      linarith
    · show cam.pitch < Real.pi / 2
      linarith
  have hy := Real.sin_sq_add_cos_sq cam.yaw
  have hp := Real.sin_sq_add_cos_sq cam.pitch
  rw [camera_basis_eq cam hcp]
  simp only [dot3]
  have hff : Real.cos cam.pitch * Real.sin cam.yaw * (Real.cos cam.pitch * Real.sin cam.yaw) +
      Real.sin cam.pitch * Real.sin cam.pitch +
      -(Real.cos cam.pitch * Real.cos cam.yaw) * -(Real.cos cam.pitch * Real.cos cam.yaw) = 1 := by
    linear_combination (Real.cos cam.pitch ^ 2) * hy + hp
  have hrr : Real.cos cam.yaw * Real.cos cam.yaw + 0 * 0 +
      Real.sin cam.yaw * Real.sin cam.yaw = 1 := by
    linear_combination hy
  have huu : -(Real.sin cam.yaw * Real.sin cam.pitch) * -(Real.sin cam.yaw * Real.sin cam.pitch) +
      Real.cos cam.pitch * Real.cos cam.pitch +
      Real.cos cam.yaw * Real.sin cam.pitch * (Real.cos cam.yaw * Real.sin cam.pitch) = 1 := by
    linear_combination (Real.sin cam.pitch ^ 2) * hy + hp
  refine ⟨hff, hrr, huu, by ring, ?_, by ring, ?_, ?_, ?_⟩
  · linear_combination (-(Real.cos cam.pitch * Real.sin cam.pitch)) * hy
  · rw [hff, Real.sqrt_one]
  · rw [hrr, Real.sqrt_one]
  · rw [huu, Real.sqrt_one]

/-- Witness for `camera_basis_orthonormal` at the identity pose. -/
theorem camera_basis_orthonormal_witness :
    -(157/100) ≤ (0:ℝ) ∧
    dot3 (camera_basis ⟨⟨0, 0, 0⟩, 0, 0⟩).1 (camera_basis ⟨⟨0, 0, 0⟩, 0, 0⟩).1 = 1 ∧
    dot3 (camera_basis ⟨⟨0, 0, 0⟩, 0, 0⟩).1 (camera_basis ⟨⟨0, 0, 0⟩, 0, 0⟩).2.1 = 0 :=
  ⟨by norm_num,
    (camera_basis_orthonormal ⟨⟨0, 0, 0⟩, 0, 0⟩ (by norm_num) (by norm_num)).1,
    (camera_basis_orthonormal ⟨⟨0, 0, 0⟩, 0, 0⟩ (by norm_num) (by norm_num)).2.2.2.1⟩

/-!
GPU-resource model for the Pipeline Manager.  OpenGL object creation
(`glCreateShader`, `glCreateProgram`, `glGenTextures`, `glGenBuffers`,
`glGenVertexArrays`) hands out names from a monotone fresh-id counter and
records them in per-kind lists of live objects; the matching `glDelete*`
calls remove them.  Whether each `load_file` / `glCompileShader` /
`glLinkProgram` call succeeds depends on the shader files on disk and the
driver, so those outcomes are fields of an explicit environment record.
-/

/-- Live OpenGL objects plus the fresh-name counter (names start at 1;
name 0 is the API's null object). -/
structure GLState where
  nextId : ℕ
  shaders : List ℕ
  programs : List ℕ
  textures : List (ℕ × ℤ × ℤ)
  buffers : List ℕ
  vertexArrays : List ℕ
deriving DecidableEq, Repr

/-- Outcome of `glDeleteShader`. -/
def glDeleteShader (s : ℕ) (gl : GLState) : GLState :=
  { gl with shaders := gl.shaders.filter (fun x => x ≠ s) }

/-- Outcome of `glDeleteProgram`. -/
def glDeleteProgram (p : ℕ) (gl : GLState) : GLState :=
  { gl with programs := gl.programs.filter (fun x => x ≠ p) }

/-- Outcome of `glDeleteTextures` on one name. -/
def glDeleteTexture (t : ℕ) (gl : GLState) : GLState :=
  { gl with textures := gl.textures.filter (fun e => e.1 ≠ t) }

/-- Success/failure of the `load_file` and `glCompileShader` steps for one
shader source file. -/
structure ShaderOutcome where
  loadOk : Bool
  compileOk : Bool
deriving DecidableEq, Repr

/-- The `compile_shader` helper shared by both renderer variants: return 0
if the file fails to load; otherwise create a shader object, and on a
compile error delete it again and return 0. -/
def compile_shader (o : ShaderOutcome) (gl : GLState) : ℕ × GLState :=
  if o.loadOk = false then (0, gl)
  else
    let s := gl.nextId
    let gl1 := { gl with nextId := gl.nextId + 1, shaders := s :: gl.shaders }
    if o.compileOk then (s, gl1)
    else (0, glDeleteShader s gl1)

/-- The `link_program` helper shared by both renderer variants: create a
program, attach and then delete both shaders, and on a link error delete
the program and return 0. -/
def link_program (linkOk : Bool) (vert frag : ℕ) (gl : GLState) : ℕ × GLState :=
  let p := gl.nextId
  let gl1 := { gl with nextId := gl.nextId + 1, programs := p :: gl.programs }
  let gl2 := glDeleteShader frag (glDeleteShader vert gl1)
  if linkOk then (p, gl2)
  else (0, glDeleteProgram p gl2)

/-- The `link_compute_program` helper of the compute variant: like
`link_program` but over a single compute shader. -/
def link_compute_program (linkOk : Bool) (comp : ℕ) (gl : GLState) : ℕ × GLState :=
  let p := gl.nextId
  let gl1 := { gl with nextId := gl.nextId + 1, programs := p :: gl.programs }
  let gl2 := glDeleteShader comp gl1
  if linkOk then (p, gl2)
  else (0, glDeleteProgram p gl2)

namespace Direct

/-- Renderer state `struct gl_renderer` of the single-fragment-program
variant (`gl_renderer.c`). -/
structure Renderer where
  width : ℤ
  height : ℤ
  program : ℕ
  vao : ℕ
  vbo : ℕ
  ok : Bool
deriving DecidableEq, Repr

/-- Environment for one compile+link attempt of the Direct variant:
outcomes for `shaders/raymarch.vert`, `shaders/raymarch.frag`, and the
link step. -/
structure ShaderEnv where
  vert : ShaderOutcome
  frag : ShaderOutcome
  linkOk : Bool
deriving DecidableEq, Repr

/-- All load, compile and link steps of the Direct variant succeed. -/
def envOk (e : ShaderEnv) : Bool :=
  e.vert.loadOk && e.vert.compileOk && e.frag.loadOk && e.frag.compileOk && e.linkOk

/-- The `gl_renderer_create` function of the Direct variant: compile both
shaders, link, then allocate the fullscreen-quad vertex array and buffer;
`NULL` is modelled as `none`. -/
def gl_renderer_create (width height : ℤ) (env : ShaderEnv) (gl : GLState) :
    Option Renderer × GLState :=
  let r1 := compile_shader env.vert gl
  let r2 := compile_shader env.frag r1.2
  if r1.1 = 0 ∨ r2.1 = 0 then (none, r2.2)
  else
    let r3 := link_program env.linkOk r1.1 r2.1 r2.2
    if r3.1 = 0 then (none, r3.2)
    else
      let gl4 := r3.2
      let vao := gl4.nextId
      let vbo := gl4.nextId + 1
      let gl5 := { gl4 with
        nextId := gl4.nextId + 2
        vertexArrays := vao :: gl4.vertexArrays
        buffers := vbo :: gl4.buffers }
      (some ⟨width, height, r3.1, vao, vbo, true⟩, gl5)

/-- The `gl_renderer_draw` observable of the Direct variant: the program
handle `glUseProgram` binds for the frame, `none` when the draw is a
no-op because the renderer is not ok. -/
def gl_renderer_draw (r : Renderer) : Option ℕ :=
  if r.ok then some r.program else none

/-- The `gl_renderer_resize` function of the Direct variant: store the new
viewport dimensions; no GL call is made. -/
def gl_renderer_resize (r : Renderer) (width height : ℤ) (gl : GLState) :
    Renderer × GLState :=
  ({ r with width := width, height := height }, gl)

/-- The `gl_renderer_reload_shaders` function of the Direct variant:
compile both shaders and link a new program without touching `r.program`;
only on full success delete the old program and install the new one. -/
def gl_renderer_reload_shaders (r : Renderer) (env : ShaderEnv) (gl : GLState) :
    Bool × Renderer × GLState :=
  if r.ok = false then (false, r, gl)
  else
    let r1 := compile_shader env.vert gl
    let r2 := compile_shader env.frag r1.2
    if r1.1 = 0 ∨ r2.1 = 0 then (false, r, r2.2)
    else
      let r3 := link_program env.linkOk r1.1 r2.1 r2.2
      if r3.1 = 0 then (false, r, r3.2)
      else (true, { r with program := r3.1 }, glDeleteProgram r.program r3.2)

end Direct

namespace Compute

/-- Renderer state `struct gl_renderer` of the compute+blit variant. -/
structure Renderer where
  width : ℤ
  height : ℤ
  compute_program : ℕ
  display_program : ℕ
  output_texture : ℕ
  vao : ℕ
  vbo : ℕ
  ok : Bool
deriving DecidableEq, Repr

/-- Environment for one compile+link attempt of the compute variant:
outcomes for `shaders/raymarch.comp` and its link, and for
`shaders/display.vert` / `shaders/display.frag` and their link. -/
structure ShaderEnv where
  comp : ShaderOutcome
  compLinkOk : Bool
  vert : ShaderOutcome
  frag : ShaderOutcome
  dispLinkOk : Bool
deriving DecidableEq, Repr

/-- All load, compile and link steps of the compute variant succeed. -/
def envOk (e : ShaderEnv) : Bool :=
  e.comp.loadOk && e.comp.compileOk && e.compLinkOk &&
  e.vert.loadOk && e.vert.compileOk && e.frag.loadOk && e.frag.compileOk &&
  e.dispLinkOk

/-- The `create_output_texture` helper: delete the previous output texture
when one exists, then allocate a fresh immutable texture sized to the
renderer's current width and height. -/
def create_output_texture (r : Renderer) (gl : GLState) : Renderer × GLState :=
  let gl1 := if r.output_texture ≠ 0 then glDeleteTexture r.output_texture gl else gl
  let t := gl1.nextId
  let gl2 := { gl1 with
    nextId := gl1.nextId + 1
    textures := (t, r.width, r.height) :: gl1.textures }
  ({ r with output_texture := t }, gl2)

/-- The `gl_renderer_create` function of the compute+blit variant. -/
def gl_renderer_create (width height : ℤ) (env : ShaderEnv) (gl : GLState) :
    Option Renderer × GLState :=
  let c1 := compile_shader env.comp gl
  if c1.1 = 0 then (none, c1.2)
  else
    let c2 := link_compute_program env.compLinkOk c1.1 c1.2
    if c2.1 = 0 then (none, c2.2)
    else
      let v := compile_shader env.vert c2.2
      let f := compile_shader env.frag v.2
      if v.1 = 0 ∨ f.1 = 0 then (none, glDeleteProgram c2.1 f.2)
      else
        let d := link_program env.dispLinkOk v.1 f.1 f.2
        if d.1 = 0 then (none, glDeleteProgram c2.1 d.2)
        else
          let r0 : Renderer := ⟨width, height, c2.1, d.1, 0, 0, 0, false⟩
          let rt := create_output_texture r0 d.2
          let gl4 := rt.2
          let vao := gl4.nextId
          let vbo := gl4.nextId + 1
          let gl5 := { gl4 with
            nextId := gl4.nextId + 2
            vertexArrays := vao :: gl4.vertexArrays
            buffers := vbo :: gl4.buffers }
          (some { rt.1 with vao := vao, vbo := vbo, ok := true }, gl5)

/-- The `gl_renderer_draw` observable of the compute+blit variant: the
compute program dispatched and the display program bound for the blit
pass, `none` when the draw is a no-op because the renderer is not ok. -/
def gl_renderer_draw (r : Renderer) : Option (ℕ × ℕ) :=
  if r.ok then some (r.compute_program, r.display_program) else none

/-- The `gl_renderer_resize` function of the compute+blit variant: store
the new viewport dimensions, then reallocate the output texture at the new
size via `create_output_texture`. -/
def gl_renderer_resize (r : Renderer) (width height : ℤ) (gl : GLState) :
    Renderer × GLState :=
  create_output_texture { r with width := width, height := height } gl

/-- The `gl_renderer_reload_shaders` function of the compute+blit variant:
build a complete new program pair without touching the active one; only on
full success delete both old programs and install the new pair. -/
def gl_renderer_reload_shaders (r : Renderer) (env : ShaderEnv) (gl : GLState) :
    Bool × Renderer × GLState :=
  if r.ok = false then (false, r, gl)
  else
    let c1 := compile_shader env.comp gl
    if c1.1 = 0 then (false, r, c1.2)
    else
      let c2 := link_compute_program env.compLinkOk c1.1 c1.2
      if c2.1 = 0 then (false, r, c2.2)
      else
        let v := compile_shader env.vert c2.2
        let f := compile_shader env.frag v.2
        if v.1 = 0 ∨ f.1 = 0 then (false, r, glDeleteProgram c2.1 f.2)
        else
          let d := link_program env.dispLinkOk v.1 f.1 f.2
          if d.1 = 0 then (false, r, glDeleteProgram c2.1 d.2)
          else
            (true,
             { r with compute_program := c2.1, display_program := d.1 },
             glDeleteProgram r.display_program (glDeleteProgram r.compute_program d.2))

end Compute

/-- C10: after `resize(w, h)` the stored viewport dimensions are exactly
`(w, h)` and every other renderer field is unchanged; the Direct variant
makes no GL call at all, while the compute variant deletes the old output
texture and allocates a fresh one sized `(w, h)`. -/
theorem resize_spec (rd : Direct.Renderer) (w h : ℤ) (gld : GLState)
    (rc : Compute.Renderer) (w2 h2 : ℤ) (glc : GLState)
    (ht0 : rc.output_texture ≠ 0) (htlt : rc.output_texture < glc.nextId) :
    Direct.gl_renderer_resize rd w h gld =
      ({ rd with width := w, height := h }, gld) ∧
    (Compute.gl_renderer_resize rc w2 h2 glc).1.width = w2 ∧
    (Compute.gl_renderer_resize rc w2 h2 glc).1.height = h2 ∧
    (Compute.gl_renderer_resize rc w2 h2 glc).1.compute_program = rc.compute_program ∧
    (Compute.gl_renderer_resize rc w2 h2 glc).1.display_program = rc.display_program ∧
    (Compute.gl_renderer_resize rc w2 h2 glc).1.vao = rc.vao ∧
    (Compute.gl_renderer_resize rc w2 h2 glc).1.vbo = rc.vbo ∧
    (Compute.gl_renderer_resize rc w2 h2 glc).1.ok = rc.ok ∧
    ((Compute.gl_renderer_resize rc w2 h2 glc).1.output_texture, w2, h2) ∈
      (Compute.gl_renderer_resize rc w2 h2 glc).2.textures ∧
    (∀ a b : ℤ, (rc.output_texture, a, b) ∉
      (Compute.gl_renderer_resize rc w2 h2 glc).2.textures) := by
  refine ⟨rfl, rfl, rfl, rfl, rfl, rfl, rfl, rfl, ?_, ?_⟩
  · simp [Compute.gl_renderer_resize, Compute.create_output_texture,
      glDeleteTexture, ht0]
  · intro a b hmem
    simp only [Compute.gl_renderer_resize, Compute.create_output_texture,
      glDeleteTexture, ne_eq, ite_not, ite_eq_right_iff] at hmem
    rw [if_neg (by simpa using ht0)] at hmem
    rcases List.mem_cons.mp hmem with hhead | htail
    · have h1 : rc.output_texture = glc.nextId := congrArg Prod.fst hhead
      omega
    · have h2 := (List.mem_filter.mp htail).2
      simp at h2

/-- Witness for `resize_spec` at a concrete renderer pair. -/
theorem resize_spec_witness :
    ((⟨5, [], [], [(5, 8, 6)], [], []⟩ : GLState).nextId = 5) ∧
    (Compute.gl_renderer_resize ⟨8, 6, 1, 2, 3, 4, 5, true⟩ 320 200
        ⟨6, [], [1, 2], [(3, 8, 6)], [5], [4]⟩).1.width = 320 ∧
    (∀ a b : ℤ, ((3:ℕ), a, b) ∉
      (Compute.gl_renderer_resize ⟨8, 6, 1, 2, 3, 4, 5, true⟩ 320 200
        ⟨6, [], [1, 2], [(3, 8, 6)], [5], [4]⟩).2.textures) := by
  have h := resize_spec ⟨1, 1, 9, 8, 7, true⟩ 640 480 ⟨1, [], [], [], [], []⟩
    ⟨8, 6, 1, 2, 3, 4, 5, true⟩ 320 200 ⟨6, [], [1, 2], [(3, 8, 6)], [5], [4]⟩
    (by decide) (by decide)
  exact ⟨rfl, h.2.1, h.2.2.2.2.2.2.2.2.2⟩

/-- C9: both `gl_renderer_create` variants leak the compiled vertex shader
when the fragment shader fails to load: starting from a fresh GL state,
creation reports failure (`none`) yet the vertex shader object (name 1 in
the Direct variant, name 3 in the compute variant) is still live — it is
never passed to `glDeleteShader` on that failure path. -/
theorem create_leak_on_frag_failure :
    (Direct.gl_renderer_create 800 600 ⟨⟨true, true⟩, ⟨false, true⟩, true⟩
      ⟨1, [], [], [], [], []⟩).1 = none ∧
    (Direct.gl_renderer_create 800 600 ⟨⟨true, true⟩, ⟨false, true⟩, true⟩
      ⟨1, [], [], [], [], []⟩).2.shaders = [1] ∧
    (Compute.gl_renderer_create 800 600
      ⟨⟨true, true⟩, true, ⟨true, true⟩, ⟨false, true⟩, true⟩
      ⟨1, [], [], [], [], []⟩).1 = none ∧
    (Compute.gl_renderer_create 800 600
      ⟨⟨true, true⟩, true, ⟨true, true⟩, ⟨false, true⟩, true⟩
      ⟨1, [], [], [], [], []⟩).2.shaders = [3] := by
  refine ⟨rfl, rfl, rfl, rfl⟩

/-- Reload contract of the Direct variant: on any load, compile or link
failure the call returns `false`, leaves the renderer (hence the program
used by `draw`) untouched; on full success it returns `true`, installs a
program that is live and distinct from the old one, deletes the old
program, and changes no other renderer field. -/
theorem reloadD_spec (r : Direct.Renderer) (env : Direct.ShaderEnv)
    (gl : GLState) (hok : r.ok = true) (hlt : r.program < gl.nextId) :
    (Direct.envOk env = false →
      (Direct.gl_renderer_reload_shaders r env gl).1 = false ∧
      (Direct.gl_renderer_reload_shaders r env gl).2.1 = r ∧
      Direct.gl_renderer_draw (Direct.gl_renderer_reload_shaders r env gl).2.1 =
        Direct.gl_renderer_draw r) ∧
    (Direct.envOk env = true →
      (Direct.gl_renderer_reload_shaders r env gl).1 = true ∧
      (Direct.gl_renderer_reload_shaders r env gl).2.1.program ∈
        (Direct.gl_renderer_reload_shaders r env gl).2.2.programs ∧
      r.program ∉ (Direct.gl_renderer_reload_shaders r env gl).2.2.programs ∧
      (Direct.gl_renderer_reload_shaders r env gl).2.1.program ≠ r.program ∧
      (Direct.gl_renderer_reload_shaders r env gl).2.1.width = r.width ∧
      (Direct.gl_renderer_reload_shaders r env gl).2.1.height = r.height ∧
      (Direct.gl_renderer_reload_shaders r env gl).2.1.vao = r.vao ∧
      (Direct.gl_renderer_reload_shaders r env gl).2.1.vbo = r.vbo ∧
      (Direct.gl_renderer_reload_shaders r env gl).2.1.ok = true ∧
      Direct.gl_renderer_draw (Direct.gl_renderer_reload_shaders r env gl).2.1 =
        some (Direct.gl_renderer_reload_shaders r env gl).2.1.program) := by
  obtain ⟨⟨vl, vc⟩, ⟨fl, fc⟩, lk⟩ := env
  have hne0 : ¬ gl.nextId = 0 := by omega
  have hne1 : ¬ gl.nextId + 1 = 0 := by omega
  have hnep : ¬ gl.nextId + 2 = r.program := by omega
  cases vl <;> cases vc <;> cases fl <;> cases fc <;> cases lk <;>
    refine ⟨fun hE => ?_, fun hE => ?_⟩ <;>
    simp_all [Direct.gl_renderer_reload_shaders, Direct.envOk, compile_shader,
      link_program, glDeleteShader, glDeleteProgram, Direct.gl_renderer_draw,
      List.mem_filter] <;> omega

/-- Reload contract of the compute+blit variant: on any load, compile or
link failure the call returns `false` and leaves the renderer (hence the
program pair used by `draw`) untouched; on full success it returns `true`,
installs a live new compute+display program pair distinct from the old
one, deletes both old programs, and changes no other renderer field. -/
theorem reloadC_spec (r : Compute.Renderer) (env : Compute.ShaderEnv)
    (gl : GLState) (hok : r.ok = true)
    (hlt1 : r.compute_program < gl.nextId)
    (hlt2 : r.display_program < gl.nextId) :
    (Compute.envOk env = false →
      (Compute.gl_renderer_reload_shaders r env gl).1 = false ∧
      (Compute.gl_renderer_reload_shaders r env gl).2.1 = r ∧
      Compute.gl_renderer_draw (Compute.gl_renderer_reload_shaders r env gl).2.1 =
        Compute.gl_renderer_draw r) ∧
    (Compute.envOk env = true →
      (Compute.gl_renderer_reload_shaders r env gl).1 = true ∧
      (Compute.gl_renderer_reload_shaders r env gl).2.1.compute_program ∈
        (Compute.gl_renderer_reload_shaders r env gl).2.2.programs ∧
      (Compute.gl_renderer_reload_shaders r env gl).2.1.display_program ∈
        (Compute.gl_renderer_reload_shaders r env gl).2.2.programs ∧
      r.compute_program ∉ (Compute.gl_renderer_reload_shaders r env gl).2.2.programs ∧
      r.display_program ∉ (Compute.gl_renderer_reload_shaders r env gl).2.2.programs ∧
      (Compute.gl_renderer_reload_shaders r env gl).2.1.compute_program ≠
        r.compute_program ∧
      (Compute.gl_renderer_reload_shaders r env gl).2.1.display_program ≠
        r.display_program ∧
      (Compute.gl_renderer_reload_shaders r env gl).2.1.width = r.width ∧
      (Compute.gl_renderer_reload_shaders r env gl).2.1.height = r.height ∧
      (Compute.gl_renderer_reload_shaders r env gl).2.1.output_texture =
        r.output_texture ∧
      (Compute.gl_renderer_reload_shaders r env gl).2.1.vao = r.vao ∧
      (Compute.gl_renderer_reload_shaders r env gl).2.1.vbo = r.vbo ∧
      (Compute.gl_renderer_reload_shaders r env gl).2.1.ok = true ∧
      Compute.gl_renderer_draw (Compute.gl_renderer_reload_shaders r env gl).2.1 =
        some ((Compute.gl_renderer_reload_shaders r env gl).2.1.compute_program,
              (Compute.gl_renderer_reload_shaders r env gl).2.1.display_program)) := by
  obtain ⟨⟨cl, cc⟩, clk, ⟨vl, vc⟩, ⟨fl, fc⟩, dlk⟩ := env
  have hne0 : ¬ gl.nextId = 0 := by omega
  have hne2 : ¬ gl.nextId + 2 = 0 := by omega
  have hne3 : ¬ gl.nextId + 3 = 0 := by omega
  have hc1 : ¬ gl.nextId + 1 = r.compute_program := by omega
  have hc2 : ¬ gl.nextId + 1 = r.display_program := by omega
  have hd1 : ¬ gl.nextId + 4 = r.compute_program := by omega
  have hd2 : ¬ gl.nextId + 4 = r.display_program := by omega
  constructor
  · intro hE
    cases cl with
    | false =>
      simp [Compute.gl_renderer_reload_shaders, compile_shader, hok]
    | true =>
      cases cc with
      | false =>
        simp [Compute.gl_renderer_reload_shaders, compile_shader,
          glDeleteShader, hok]
      | true =>
        cases clk with
        | false =>
          simp [Compute.gl_renderer_reload_shaders, compile_shader,
            link_compute_program, glDeleteShader, glDeleteProgram, hok, hne0]
        | true =>
          cases vl with
          | false =>
            simp [Compute.gl_renderer_reload_shaders, compile_shader,
              link_compute_program, glDeleteShader, glDeleteProgram, hok, hne0]
          | true =>
            cases vc with
            | false =>
              simp [Compute.gl_renderer_reload_shaders, compile_shader,
                link_compute_program, glDeleteShader, glDeleteProgram, hok, hne0]
            | true =>
              cases fl with
              | false =>
                simp [Compute.gl_renderer_reload_shaders, compile_shader,
                  link_compute_program, glDeleteShader, glDeleteProgram, hok,
                  hne0, hne2]
              | true =>
                cases fc with
                | false =>
                  simp [Compute.gl_renderer_reload_shaders, compile_shader,
                    link_compute_program, glDeleteShader, glDeleteProgram, hok,
                    hne0, hne2]
                | true =>
                  cases dlk with
                  | false =>
                    simp [Compute.gl_renderer_reload_shaders, compile_shader,
                      link_program, link_compute_program, glDeleteShader,
                      glDeleteProgram, hok, hne0, hne2, hne3]
                  | true =>
                    simp [Compute.envOk] at hE
  · intro hE
    simp only [Compute.envOk, Bool.and_eq_true] at hE
    obtain ⟨⟨⟨⟨⟨⟨⟨h1, h2⟩, h3⟩, h4⟩, h5⟩, h6⟩, h7⟩, h8⟩ := hE
    subst h1; subst h2; subst h3; subst h4; subst h5; subst h6; subst h7
    subst h8
    simp [Compute.gl_renderer_reload_shaders, compile_shader, link_program,
      link_compute_program, glDeleteShader, glDeleteProgram,
      Compute.gl_renderer_draw, List.mem_filter, hok, hne0, hne2, hne3,
      hc1, hc2, hd1, hd2] <;> omega

/-- C1: hot reload is all-or-nothing in both pipeline variants.  For a
Ready renderer, any load/compile/link failure makes `reload_shaders`
return `false` with the active program set (single program, or
compute+display pair) and the programs used by subsequent `draw` calls
bit-for-bit unchanged; only when every step succeeds does it return
`true`, atomically install a fresh program set, and delete the old
programs from the live GL state. -/
theorem reload_all_or_nothing (rd : Direct.Renderer) (envd : Direct.ShaderEnv)
    (gld : GLState) (rc : Compute.Renderer) (envc : Compute.ShaderEnv)
    (glc : GLState) (hokd : rd.ok = true) (hltd : rd.program < gld.nextId)
    (hokc : rc.ok = true) (hltc1 : rc.compute_program < glc.nextId)
    (hltc2 : rc.display_program < glc.nextId) :
    ((Direct.envOk envd = false →
      (Direct.gl_renderer_reload_shaders rd envd gld).1 = false ∧
      (Direct.gl_renderer_reload_shaders rd envd gld).2.1 = rd ∧
      Direct.gl_renderer_draw (Direct.gl_renderer_reload_shaders rd envd gld).2.1 =
        Direct.gl_renderer_draw rd) ∧
    (Direct.envOk envd = true →
      (Direct.gl_renderer_reload_shaders rd envd gld).1 = true ∧
      (Direct.gl_renderer_reload_shaders rd envd gld).2.1.program ∈
        (Direct.gl_renderer_reload_shaders rd envd gld).2.2.programs ∧
      rd.program ∉ (Direct.gl_renderer_reload_shaders rd envd gld).2.2.programs ∧
      (Direct.gl_renderer_reload_shaders rd envd gld).2.1.program ≠ rd.program ∧
      (Direct.gl_renderer_reload_shaders rd envd gld).2.1.width = rd.width ∧
      (Direct.gl_renderer_reload_shaders rd envd gld).2.1.height = rd.height ∧
      (Direct.gl_renderer_reload_shaders rd envd gld).2.1.vao = rd.vao ∧
      (Direct.gl_renderer_reload_shaders rd envd gld).2.1.vbo = rd.vbo ∧
      (Direct.gl_renderer_reload_shaders rd envd gld).2.1.ok = true ∧
      Direct.gl_renderer_draw (Direct.gl_renderer_reload_shaders rd envd gld).2.1 =
        some (Direct.gl_renderer_reload_shaders rd envd gld).2.1.program)) ∧
    ((Compute.envOk envc = false →
      (Compute.gl_renderer_reload_shaders rc envc glc).1 = false ∧
      (Compute.gl_renderer_reload_shaders rc envc glc).2.1 = rc ∧
      Compute.gl_renderer_draw (Compute.gl_renderer_reload_shaders rc envc glc).2.1 =
        Compute.gl_renderer_draw rc) ∧
    (Compute.envOk envc = true →
      (Compute.gl_renderer_reload_shaders rc envc glc).1 = true ∧
      (Compute.gl_renderer_reload_shaders rc envc glc).2.1.compute_program ∈
        (Compute.gl_renderer_reload_shaders rc envc glc).2.2.programs ∧
      (Compute.gl_renderer_reload_shaders rc envc glc).2.1.display_program ∈
        (Compute.gl_renderer_reload_shaders rc envc glc).2.2.programs ∧
      rc.compute_program ∉ (Compute.gl_renderer_reload_shaders rc envc glc).2.2.programs ∧
      rc.display_program ∉ (Compute.gl_renderer_reload_shaders rc envc glc).2.2.programs ∧
      (Compute.gl_renderer_reload_shaders rc envc glc).2.1.compute_program ≠
        rc.compute_program ∧
      (Compute.gl_renderer_reload_shaders rc envc glc).2.1.display_program ≠
        rc.display_program ∧
      (Compute.gl_renderer_reload_shaders rc envc glc).2.1.width = rc.width ∧
      (Compute.gl_renderer_reload_shaders rc envc glc).2.1.height = rc.height ∧
      (Compute.gl_renderer_reload_shaders rc envc glc).2.1.output_texture =
        rc.output_texture ∧
      (Compute.gl_renderer_reload_shaders rc envc glc).2.1.vao = rc.vao ∧
      (Compute.gl_renderer_reload_shaders rc envc glc).2.1.vbo = rc.vbo ∧
      (Compute.gl_renderer_reload_shaders rc envc glc).2.1.ok = true ∧
      Compute.gl_renderer_draw (Compute.gl_renderer_reload_shaders rc envc glc).2.1 =
        some ((Compute.gl_renderer_reload_shaders rc envc glc).2.1.compute_program,
              (Compute.gl_renderer_reload_shaders rc envc glc).2.1.display_program))) :=
  ⟨reloadD_spec rd envd gld hokd hltd, reloadC_spec rc envc glc hokc hltc1 hltc2⟩

/-- Witness for `reload_all_or_nothing`: a Ready renderer pair and an
environment whose vertex (resp. compute) shader fails to load; the failed
reload returns `false` and leaves the Direct renderer untouched. -/
theorem reload_all_or_nothing_witness :
    (⟨640, 480, 3, 1, 2, true⟩ : Direct.Renderer).ok = true ∧
    (Direct.gl_renderer_reload_shaders ⟨640, 480, 3, 1, 2, true⟩
      ⟨⟨false, true⟩, ⟨true, true⟩, true⟩ ⟨4, [], [3], [], [2], [1]⟩).1 = false ∧
    (Direct.gl_renderer_reload_shaders ⟨640, 480, 3, 1, 2, true⟩
      ⟨⟨false, true⟩, ⟨true, true⟩, true⟩ ⟨4, [], [3], [], [2], [1]⟩).2.1 =
      ⟨640, 480, 3, 1, 2, true⟩ ∧
    (Compute.gl_renderer_reload_shaders ⟨640, 480, 4, 5, 3, 1, 2, true⟩
      ⟨⟨false, true⟩, true, ⟨true, true⟩, ⟨true, true⟩, true⟩
      ⟨6, [], [4, 5], [(3, 640, 480)], [2], [1]⟩).1 = false := by
  have h := reload_all_or_nothing ⟨640, 480, 3, 1, 2, true⟩
    ⟨⟨false, true⟩, ⟨true, true⟩, true⟩ ⟨4, [], [3], [], [2], [1]⟩
    ⟨640, 480, 4, 5, 3, 1, 2, true⟩
    ⟨⟨false, true⟩, true, ⟨true, true⟩, ⟨true, true⟩, true⟩
    ⟨6, [], [4, 5], [(3, 640, 480)], [2], [1]⟩
    rfl (by decide) rfl (by decide) (by decide)
  have hd := h.1.1 (by decide)
  have hc := h.2.1 (by decide)
  exact ⟨rfl, hd.1, hd.2.1, hc.1⟩
